import Mathlib

/-!
Shallow embedding of the multi-attempt / multi-model evaluation orchestrator
of kpenfound/vito-daggerverse (source file src/unnamed/part_001, package main).

The orchestrator launches N concurrent attempt runners; each runner writes its
narrative into the slot reserved for its own 0-based index in a pre-allocated
slice (`reports := make([]string, w.Attempts)`), starts one observability span,
and increments a shared success counter when its success query returns true.
We model the concurrent execution by an explicit completion order: a list of
runner indices giving the order in which the runners' effects land. Slot
writes, span starts and counter updates are folded over that order; theorems
quantify over every permutation of the index range, capturing "regardless of
completion order". The external dagger evaluation (`eval.Report`,
`eval.Succeeded`) is abstracted by an oracle giving each call's result as a
function of the evaluation name and the run context (attempt number, model,
system prompt), exactly the data the source threads into the call.

Pointer-receiver methods that mutate their receiver (`WithSystemPrompt`) are
modelled with an explicit heap from addresses to `Workspace` records.

The unsynchronized `successCount++` performed by the goroutines (lines
118-125 of the source) is additionally given a fine-grained model in which
the increment is split into its load and store, so that racy interleavings
of the counter update can be exhibited.
-/

namespace Daggerverse

/-- The Workspace object of the source: model identifier, attempts count and
system prompt.  The Go field `Attempts` is an `int`; every claim concerns the
non-negative range, so it is modelled as `Nat`. -/
structure Workspace where
  Model : String
  Attempts : Nat
  SystemPrompt : String
  deriving DecidableEq

/-- Source `New`: construct a Workspace from its three fields. -/
def New (model : String) (attempts : Nat) (systemPrompt : String) : Workspace :=
  { Model := model, Attempts := attempts, SystemPrompt := systemPrompt }

/-- Addresses of heap-allocated Workspace values (Go pointers). -/
abbrev Ptr := Nat

/-- A heap assigning a Workspace record to every address. -/
abbrev Heap := Ptr → Workspace

/-- Source `WithSystemPrompt` (lines 60-63): a pointer-receiver method that
assigns `w.SystemPrompt = prompt` through the receiver pointer and returns
that same pointer.  Modelled as a heap transformer returning the updated heap
together with the returned pointer. -/
def WithSystemPrompt (h : Heap) (w : Ptr) (prompt : String) : Heap × Ptr :=
  (fun q => if q = w then { h w with SystemPrompt := prompt } else h q, w)

/-- The keys of the source's `evals` map (lines 35-42).  The map values are
methods of the external `dagger.Evals` object; their behaviour is abstracted
by the `Oracle` below, so only the key set matters for the orchestrator. -/
def evals : List String :=
  ["BuildMulti", "BuildMultiNoVar", "ReadImplicitVars", "SingleState",
   "SingleStateTransition", "UndoSingle"]

/-- The fixed known-models list of the source (lines 26-31). -/
def knownModels : List String :=
  ["gpt-4o", "gemini-2.0-flash", "claude-3-5-sonnet-latest",
   "claude-3-7-sonnet-latest"]

/-- The run-scoped context the source builds for one attempt:
`dag.Evals().WithAttempt(attempt+1).WithModel(w.Model).WithSystemPrompt(w.SystemPrompt)`.
`attempt` here is the 1-based attempt number passed to `WithAttempt`. -/
structure RunCtx where
  attempt : Nat
  model : String
  systemPrompt : String
  deriving DecidableEq

/-- Abstraction of the external dagger evaluation: the result of
`eval.Report(ctx)` and `eval.Succeeded(ctx)` as a function of the evaluation
name and the run context.  `Except.error` is a non-nil Go error. -/
structure Oracle where
  report : String → RunCtx → Except String String
  succeeded : String → RunCtx → Except String Bool

/-- The header every attempt runner writes first (lines 106-107):
`fmt.Fprintf(report, "## Attempt %d\n", attempt+1)` followed by a blank
line from `fmt.Fprintln(report)`. -/
def attemptHeader (attempt : Nat) : String :=
  "## Attempt " ++ toString (attempt + 1) ++ "\n\n"

/-- Outcome of one attempt runner: the narrative written to its slot, whether
it incremented the success counter, and whether it invoked the success query
`eval.Succeeded`. -/
structure AttemptResult where
  content : String
  succeeded : Bool
  queriedSucceeded : Bool
  deriving DecidableEq

/-- One attempt runner body (lines 94-126), minus the shared-state effects:
write the header, call `eval.Report` (on error, return with the slot holding
only the header), append the rendered report plus the newline `Fprintln`
adds, call `eval.Succeeded` (on error, return without counting), and report
the resulting boolean.  `attempt` is the 0-based loop index of the source. -/
def runAttempt (O : Oracle) (w : Workspace) (evalName : String) (attempt : Nat) :
    AttemptResult :=
  match O.report evalName
      { attempt := attempt + 1, model := w.Model, systemPrompt := w.SystemPrompt } with
  | Except.error _ =>
      { content := attemptHeader attempt, succeeded := false, queriedSucceeded := false }
  | Except.ok evalReport =>
      match O.succeeded evalName
          { attempt := attempt + 1, model := w.Model, systemPrompt := w.SystemPrompt } with
      | Except.error _ =>
          { content := attemptHeader attempt ++ evalReport ++ "\n",
            succeeded := false, queriedSucceeded := true }
      | Except.ok b =>
          { content := attemptHeader attempt ++ evalReport ++ "\n",
            succeeded := b, queriedSucceeded := true }

/-- Shared state of the attempt fan-out: the slot array (`reports`, one slot
per 0-based index, zero value the empty string), the shared success counter,
the log of spans started, and the log of attempt indices whose success query
was invoked. -/
structure FanState where
  slots : Nat → String
  successCount : Nat
  spans : List String
  queried : List Nat

/-- Initial fan-out state: `make([]string, w.Attempts)` and a zero counter. -/
def initFanState : FanState :=
  { slots := fun _ => "", successCount := 0, spans := [], queried := [] }

/-- Effect of the runner for index `i` completing: its span is started, its
slot (and only its slot) receives its narrative, and the success counter is
incremented exactly when its success query returned true. -/
def stepAttempt (O : Oracle) (w : Workspace) (evalName : String)
    (st : FanState) (i : Nat) : FanState :=
  { slots := fun j => if j = i then (runAttempt O w evalName i).content else st.slots j
    successCount :=
      if (runAttempt O w evalName i).succeeded then st.successCount + 1
      else st.successCount
    spans := st.spans ++ ["attempt " ++ toString (i + 1)]
    queried :=
      if (runAttempt O w evalName i).queriedSucceeded then st.queried ++ [i]
      else st.queried }

/-- Run the attempt fan-out with the given completion order. -/
def runFanOut (O : Oracle) (w : Workspace) (evalName : String)
    (order : List Nat) : FanState :=
  order.foldl (stepAttempt O w evalName) initFanState

/-- Round to the nearest natural, ties to even: the rounding Go's `%.f`
verb applies to a non-negative value `num/den` (with `den > 0`). -/
def roundHalfEven (num den : Nat) : Nat :=
  if 2 * (num % den) < den then num / den
  else if den < 2 * (num % den) then num / den + 1
  else if (num / den) % 2 = 0 then num / den else num / den + 1

/-- The percentage text of the success-rate line:
`float64(s)/float64(n)*100` printed with `%.f`.  For `n = 0` the float
division yields NaN (when `s = 0`) or +Inf, which `%.f` prints verbatim;
otherwise the exact rational `100*s/n` rounded to the nearest integer, ties
to even (the float computation is exact at every input our theorems
evaluate). -/
def goPct (s n : Nat) : String :=
  if n = 0 then (if s = 0 then "NaN" else "+Inf")
  else toString (roundHalfEven (100 * s) n)

/-- The summary line (line 142):
`fmt.Fprintf(finalReport, "SUCCESS RATE: %d/%d (%.f%%)\n", ...)`. -/
def successRateLine (s n : Nat) : String :=
  "SUCCESS RATE: " ++ toString s ++ "/" ++ toString n ++ " (" ++ goPct s n ++ "%)\n"

/-- The fixed text the final report opens with (lines 132-135). -/
def reportHead (w : Workspace) : String :=
  "# Model: " ++ w.Model ++ "\n\n## All Attempts\n\n"

/-- The closing section of the final report (lines 140-142). -/
def finalSection (s n : Nat) : String :=
  "## Final Report\n\n" ++ successRateLine s n

/-- Result of one `Evaluate` call: the Go `(string, error)` pair plus the
log of spans started during the call. -/
structure EvalOutcome where
  report : String
  err : Option String
  spans : List String
  deriving DecidableEq

/-- Source `Evaluate` (lines 84-145): resolve the evaluation name (failing
fast with `unknown evaluation: <name>` before any runner launches or span
starts), run the fan-out under the given completion order, then assemble the
final report: the model header, every slot in index order 0..N-1, and the
final section with the success-rate line over the counter and `w.Attempts`. -/
def Evaluate (O : Oracle) (w : Workspace) (evalName : String)
    (order : List Nat) : EvalOutcome :=
  if evals.contains evalName then
    { report :=
        reportHead w
          ++ String.join ((List.range w.Attempts).map (runFanOut O w evalName order).slots)
          ++ finalSection (runFanOut O w evalName order).successCount w.Attempts
      err := none
      spans := (runFanOut O w evalName order).spans }
  else
    { report := "", err := some ("unknown evaluation: " ++ evalName), spans := [] }

/-- The slot text one model's unit writes in `EvaluateAllModelsOnce`
(lines 157-163): delegate to `Evaluate` with a fresh one-attempt Workspace
for that model inheriting the caller's system prompt (the single attempt's
completion order is the one-element range); on error store
`ERROR: <message>`, otherwise the report. -/
def modelSlot (O : Oracle) (w : Workspace) (name : String) (i : Nat) : String :=
  match (Evaluate O (New (knownModels.getD i "") 1 w.SystemPrompt) name
      (List.range 1)).err with
  | some e => "ERROR: " ++ e
  | none =>
      (Evaluate O (New (knownModels.getD i "") 1 w.SystemPrompt) name
        (List.range 1)).report

/-- Shared state of the model fan-out: one slot per known-model index, plus
the span log. -/
structure MState where
  slots : Nat → String
  spans : List String

/-- Effect of the unit for known-model index `i` completing: its span
(`model: <name>`) is started, the delegated evaluation runs, and its slot
(and only its slot) receives the outcome. -/
def stepModel (O : Oracle) (w : Workspace) (name : String)
    (st : MState) (i : Nat) : MState :=
  { slots := fun j => if j = i then modelSlot O w name i else st.slots j
    spans := st.spans ++ ["model: " ++ knownModels.getD i ""]
      ++ (Evaluate O (New (knownModels.getD i "") 1 w.SystemPrompt) name
          (List.range 1)).spans }

/-- Result of `EvaluateAllModelsOnce`: the Go `([]string, error)` pair plus
the span log. -/
structure ModelsOutcome where
  reports : List String
  err : Option String
  spans : List String
  deriving DecidableEq

/-- Source `EvaluateAllModelsOnce` (lines 148-168): run one single-attempt
evaluation per known model under the given completion order, wait for all,
and return the slots in known-models list order with a nil error. -/
def EvaluateAllModelsOnce (O : Oracle) (w : Workspace) (name : String)
    (order : List Nat) : ModelsOutcome :=
  { reports :=
      (List.range knownModels.length).map
        ((order.foldl (stepModel O w name) { slots := fun _ => "", spans := [] }).slots)
    err := none
    spans := (order.foldl (stepModel O w name) { slots := fun _ => "", spans := [] }).spans }

/-! Fine-grained model of the shared counter update.  The source increments
`successCount` from concurrently running goroutines with a plain
`successCount++` (line 124) and no mutex or atomic; that statement is a
non-atomic load of the counter followed by a store of the loaded value plus
one.  A schedule interleaves those two halves across runners. -/

/-- One half of a runner's `successCount++`: the load or the store. -/
inductive CounterOp where
  | load : Nat → CounterOp
  | store : Nat → CounterOp
  deriving DecidableEq

/-- The runner an operation belongs to. -/
def runnerOf : CounterOp → Nat
  | CounterOp.load r => r
  | CounterOp.store r => r

/-- State of the counter race: the shared counter and each runner's loaded
local value (none before its load). -/
structure RaceState where
  counter : Nat
  localVal : Nat → Option Nat

/-- Execute one half of an increment: a load copies the shared counter into
the runner's local; a store writes the runner's local plus one back. -/
def execOp (st : RaceState) : CounterOp → RaceState
  | CounterOp.load r =>
      { counter := st.counter
        localVal := fun j => if j = r then some st.counter else st.localVal j }
  | CounterOp.store r =>
      match st.localVal r with
      | some v => { counter := v + 1, localVal := st.localVal }
      | none => st

/-- Execute a whole schedule from a zero counter. -/
def execSched (sched : List CounterOp) : RaceState :=
  sched.foldl execOp { counter := 0, localVal := fun _ => none }

/-- A schedule is a valid interleaving of the increments of the given
succeeding runners when each such runner performs exactly its load followed
(not necessarily adjacently) by its store, and no other runner appears. -/
def validSched (runners : List Nat) (sched : List CounterOp) : Bool :=
  runners.all (fun r =>
    decide (sched.filter (fun op => decide (runnerOf op = r))
      = [CounterOp.load r, CounterOp.store r]))
  && sched.all (fun op => runners.contains (runnerOf op))

/-- A schedule in which both of two succeeding runners load the counter
before either stores: the interleaving Go's race detector warns about. -/
def raceSched : List CounterOp :=
  [CounterOp.load 0, CounterOp.load 1, CounterOp.store 0, CounterOp.store 1]

/-! Concrete fixtures used by the closed witness and counterexample
theorems. -/

/-- An evaluation oracle whose render and success query always succeed. -/
def okOracle : Oracle :=
  { report := fun _ _ => Except.ok "eval transcript"
    succeeded := fun _ _ => Except.ok true }

/-- An evaluation oracle whose render call fails on attempt number 2 and
succeeds elsewhere. -/
def failAt2Oracle : Oracle :=
  { report := fun _ ctx =>
      if ctx.attempt = 2 then Except.error "render failed"
      else Except.ok "eval transcript"
    succeeded := fun _ _ => Except.ok true }

/-- An evaluation oracle whose render call succeeds and whose success query
always fails. -/
def succFailOracle : Oracle :=
  { report := fun _ _ => Except.ok "eval transcript"
    succeeded := fun _ _ => Except.error "check failed" }

/-- A concrete two-attempt workspace. -/
def wsTwo : Workspace := New "gpt-4o" 2 ""

/-- A concrete three-attempt workspace. -/
def wsThree : Workspace := New "gpt-4o" 3 ""

/-- A concrete zero-attempt workspace. -/
def wsZero : Workspace := New "gpt-4o" 0 ""

/-- A concrete heap whose every cell holds the same initial workspace. -/
def heap0 : Heap :=
  fun _ => { Model := "gpt-4o", Attempts := 2, SystemPrompt := "original" }

/-! Core lemmas about the attempt fan-out. -/

/-- After folding any completion order, a slot holds its own runner's
narrative when that runner completed, and its initial value otherwise. -/
theorem foldl_stepAttempt_slots (O : Oracle) (w : Workspace) (evalName : String)
    (order : List Nat) (st : FanState) (i : Nat) :
    (order.foldl (stepAttempt O w evalName) st).slots i
      = if i ∈ order then (runAttempt O w evalName i).content else st.slots i := by
  induction order generalizing st with
  | nil => simp
  | cons a t ih =>
    rw [List.foldl_cons, ih]
    by_cases hit : i ∈ t
    · simp [hit]
    · by_cases hia : i = a
      · subst hia
        simp [hit, stepAttempt]
      · simp [hit, hia, stepAttempt]

/-- After folding any completion order, the success counter grew by the
number of completed runners whose success query returned true. -/
theorem foldl_stepAttempt_count (O : Oracle) (w : Workspace) (evalName : String)
    (order : List Nat) (st : FanState) :
    (order.foldl (stepAttempt O w evalName) st).successCount
      = st.successCount
        + order.countP (fun i => (runAttempt O w evalName i).succeeded) := by
  induction order generalizing st with
  | nil => simp
  | cons a t ih =>
    rw [List.foldl_cons, ih, List.countP_cons]
    by_cases ha : (runAttempt O w evalName a).succeeded
    · simp [stepAttempt, ha]
      omega
    · simp [stepAttempt, ha]

/-- After folding any completion order, the span log grew by one span per
completed runner, labeled with its 1-based attempt number. -/
theorem foldl_stepAttempt_spans (O : Oracle) (w : Workspace) (evalName : String)
    (order : List Nat) (st : FanState) :
    (order.foldl (stepAttempt O w evalName) st).spans
      = st.spans ++ order.map (fun i => "attempt " ++ toString (i + 1)) := by
  induction order generalizing st with
  | nil => simp
  | cons a t ih =>
    rw [List.foldl_cons, ih]
    simp [stepAttempt]

/-- A runner that never invoked its success query never enters the query
log. -/
theorem foldl_stepAttempt_not_queried (O : Oracle) (w : Workspace)
    (evalName : String) (order : List Nat) (st : FanState) (k : Nat)
    (hq : (runAttempt O w evalName k).queriedSucceeded = false)
    (hst : k ∉ st.queried) :
    k ∉ (order.foldl (stepAttempt O w evalName) st).queried := by
  induction order generalizing st with
  | nil => simpa using hst
  | cons a t ih =>
    rw [List.foldl_cons]
    apply ih
    by_cases hqa : (runAttempt O w evalName a).queriedSucceeded
    · simp only [stepAttempt, hqa, if_pos]
      simp only [List.mem_append, List.mem_singleton]
      rintro (h | rfl)
      · exact hst h
      · rw [hq] at hqa
        exact Bool.false_ne_true hqa
    · simpa [stepAttempt, hqa] using hst

/-- Fan-out slot readout: a slot holds its runner's narrative when its index
completed, and the zero value (empty string) otherwise. -/
theorem runFanOut_slots (O : Oracle) (w : Workspace) (evalName : String)
    (order : List Nat) (i : Nat) :
    (runFanOut O w evalName order).slots i
      = if i ∈ order then (runAttempt O w evalName i).content else "" := by
  rw [runFanOut, foldl_stepAttempt_slots]
  rfl

/-- Under a completion order that is a permutation of the index range, the
index-ordered slot readout is the index-ordered list of runner narratives:
completion order is invisible in the aggregate. -/
theorem runFanOut_slots_map (O : Oracle) (w : Workspace) (evalName : String)
    (order : List Nat) (hperm : order.Perm (List.range w.Attempts)) :
    (List.range w.Attempts).map (runFanOut O w evalName order).slots
      = (List.range w.Attempts).map (fun i => (runAttempt O w evalName i).content) := by
  apply List.map_congr_left
  intro i hi
  rw [runFanOut_slots, if_pos (hperm.mem_iff.mpr hi)]

/-- Under a completion order that is a permutation of the index range, the
final success counter is the number of indices whose success query returned
true. -/
theorem runFanOut_count (O : Oracle) (w : Workspace) (evalName : String)
    (order : List Nat) (hperm : order.Perm (List.range w.Attempts)) :
    (runFanOut O w evalName order).successCount
      = (List.range w.Attempts).countP
          (fun i => (runAttempt O w evalName i).succeeded) := by
  rw [runFanOut, foldl_stepAttempt_count,
    hperm.countP_eq (fun i => (runAttempt O w evalName i).succeeded)]
  simp [initFanState]

/-- Unfolding of `Evaluate` at a registered evaluation name. -/
theorem Evaluate_known (O : Oracle) (w : Workspace) (evalName : String)
    (order : List Nat) (hname : evals.contains evalName = true) :
    Evaluate O w evalName order =
      { report :=
          reportHead w
            ++ String.join
                ((List.range w.Attempts).map (runFanOut O w evalName order).slots)
            ++ finalSection (runFanOut O w evalName order).successCount w.Attempts
        err := none
        spans := (runFanOut O w evalName order).spans } := by
  have hm : evalName ∈ evals := by simpa using hname
  simp [Evaluate, hm]

/-- A rendered-report error leaves the attempt with only its header, no
success and no success query. -/
theorem runAttempt_report_error (O : Oracle) (w : Workspace) (evalName : String)
    (k : Nat) (e : String)
    (herr : O.report evalName
        { attempt := k + 1, model := w.Model, systemPrompt := w.SystemPrompt }
      = Except.error e) :
    runAttempt O w evalName k
      = { content := attemptHeader k, succeeded := false,
          queriedSucceeded := false } := by
  unfold runAttempt
  rw [herr]

/-- A success-query error leaves the attempt with the header plus the
rendered report, not counted as a success, after invoking the query. -/
theorem runAttempt_succeeded_error (O : Oracle) (w : Workspace)
    (evalName : String) (k : Nat) (rpt e : String)
    (hr : O.report evalName
        { attempt := k + 1, model := w.Model, systemPrompt := w.SystemPrompt }
      = Except.ok rpt)
    (hs : O.succeeded evalName
        { attempt := k + 1, model := w.Model, systemPrompt := w.SystemPrompt }
      = Except.error e) :
    runAttempt O w evalName k
      = { content := attemptHeader k ++ rpt ++ "\n", succeeded := false,
          queriedSucceeded := true } := by
  unfold runAttempt
  rw [hr, hs]

/-- A fully successful pair of calls leaves the attempt with the header plus
the rendered report and the queried boolean. -/
theorem runAttempt_ok (O : Oracle) (w : Workspace)
    (evalName : String) (k : Nat) (rpt : String) (b : Bool)
    (hr : O.report evalName
        { attempt := k + 1, model := w.Model, systemPrompt := w.SystemPrompt }
      = Except.ok rpt)
    (hs : O.succeeded evalName
        { attempt := k + 1, model := w.Model, systemPrompt := w.SystemPrompt }
      = Except.ok b) :
    runAttempt O w evalName k
      = { content := attemptHeader k ++ rpt ++ "\n", succeeded := b,
          queriedSucceeded := true } := by
  unfold runAttempt
  rw [hr, hs]

/-! Core lemmas about the model fan-out. -/

/-- After folding any completion order of model units, a slot holds its own
model's outcome when that unit completed, and its initial value otherwise. -/
theorem foldl_stepModel_slots (O : Oracle) (w : Workspace) (name : String)
    (order : List Nat) (st : MState) (i : Nat) :
    (order.foldl (stepModel O w name) st).slots i
      = if i ∈ order then modelSlot O w name i else st.slots i := by
  induction order generalizing st with
  | nil => simp
  | cons a t ih =>
    rw [List.foldl_cons, ih]
    by_cases hit : i ∈ t
    · simp [hit]
    · by_cases hia : i = a
      · subst hia
        simp [hit, stepModel]
      · simp [hit, hia, stepModel]

/-- Under a completion order that is a permutation of the known-model index
range, the report list is the list-ordered sequence of model outcomes. -/
theorem EvaluateAllModelsOnce_reports (O : Oracle) (w : Workspace)
    (name : String) (order : List Nat)
    (hperm : order.Perm (List.range knownModels.length)) :
    (EvaluateAllModelsOnce O w name order).reports
      = (List.range knownModels.length).map (modelSlot O w name) := by
  unfold EvaluateAllModelsOnce
  apply List.map_congr_left
  intro i hi
  rw [foldl_stepModel_slots, if_pos (hperm.mem_iff.mpr hi)]

/-! Claim theorems. -/

/-- C1: for every attempts count N ≥ 1 and registered evaluation name,
`Evaluate` under any completion order of the concurrent runners produces an
aggregate whose attempt part is exactly the N per-attempt narratives
concatenated in attempt-index order 1..N: the slot readout has length N and
equals the index-ordered narrative list, and the final report is the same for
every completion order, because each runner writes only the slot of its own
index. -/
theorem evaluate_sections_in_index_order (O : Oracle) (w : Workspace)
    (evalName : String) (order : List Nat)
    (hN : 1 ≤ w.Attempts) (hname : evals.contains evalName = true)
    (hperm : order.Perm (List.range w.Attempts)) :
    ((List.range w.Attempts).map (runFanOut O w evalName order).slots).length
        = w.Attempts
    ∧ (List.range w.Attempts).map (runFanOut O w evalName order).slots
        = (List.range w.Attempts).map (fun i => (runAttempt O w evalName i).content)
    ∧ (Evaluate O w evalName order).report
        = reportHead w
          ++ String.join
              ((List.range w.Attempts).map
                (fun i => (runAttempt O w evalName i).content))
          ++ finalSection
              ((List.range w.Attempts).countP
                (fun i => (runAttempt O w evalName i).succeeded))
              w.Attempts := by
  refine ⟨by simp, runFanOut_slots_map O w evalName order hperm, ?_⟩
  rw [Evaluate_known O w evalName order hname]
  dsimp only
  rw [runFanOut_slots_map O w evalName order hperm,
    runFanOut_count O w evalName order hperm]

/-- Witness for C1: two attempts completing in reverse order. -/
theorem evaluate_sections_in_index_order_witness :
    ((List.range wsTwo.Attempts).map
        (runFanOut okOracle wsTwo "SingleState" [1, 0]).slots).length
      = wsTwo.Attempts
    ∧ (List.range wsTwo.Attempts).map
          (runFanOut okOracle wsTwo "SingleState" [1, 0]).slots
        = (List.range wsTwo.Attempts).map
            (fun i => (runAttempt okOracle wsTwo "SingleState" i).content)
    ∧ (Evaluate okOracle wsTwo "SingleState" [1, 0]).report
        = reportHead wsTwo
          ++ String.join
              ((List.range wsTwo.Attempts).map
                (fun i => (runAttempt okOracle wsTwo "SingleState" i).content))
          ++ finalSection
              ((List.range wsTwo.Attempts).countP
                (fun i => (runAttempt okOracle wsTwo "SingleState" i).succeeded))
              wsTwo.Attempts :=
  evaluate_sections_in_index_order okOracle wsTwo "SingleState" [1, 0]
    (by decide) (by decide) (by decide)

/-- C2: for every attempts count N ≥ 1, every registered evaluation name and
every combination of per-attempt successes, the aggregate report ends with
the summary line `SUCCESS RATE: s/N (pct%)` where s is the number of
attempts whose success query returned true (failed attempts never counted);
at the extremes the percentage text is 0 and 100. -/
theorem evaluate_success_rate_line (O : Oracle) (w : Workspace)
    (evalName : String) (order : List Nat)
    (hN : 1 ≤ w.Attempts) (hname : evals.contains evalName = true)
    (hperm : order.Perm (List.range w.Attempts)) :
    (∃ pre, (Evaluate O w evalName order).report
        = pre ++ successRateLine
            ((List.range w.Attempts).countP
              (fun i => (runAttempt O w evalName i).succeeded))
            w.Attempts)
    ∧ goPct 0 w.Attempts = "0"
    ∧ goPct w.Attempts w.Attempts = "100" := by
  have hpos : 0 < w.Attempts := hN
  have hne : w.Attempts ≠ 0 := by omega
  refine ⟨⟨reportHead w
      ++ String.join
          ((List.range w.Attempts).map (fun i => (runAttempt O w evalName i).content))
      ++ "## Final Report\n\n", ?_⟩, ?_, ?_⟩
  · rw [Evaluate_known O w evalName order hname]
    dsimp only
    rw [runFanOut_slots_map O w evalName order hperm,
      runFanOut_count O w evalName order hperm]
    simp only [finalSection, String.append_assoc]
  · rw [goPct, if_neg hne]
    have h0 : roundHalfEven (100 * 0) w.Attempts = 0 := by
      simp [roundHalfEven, hpos]
    rw [h0]
    rfl
  · rw [goPct, if_neg hne]
    have hm : 100 * w.Attempts % w.Attempts = 0 := Nat.mul_mod_left 100 w.Attempts
    have hd : 100 * w.Attempts / w.Attempts = 100 := Nat.mul_div_cancel 100 hpos
    rw [roundHalfEven, hm, hd]
    simp only [Nat.mul_zero, hpos, if_pos]
    rfl

/-- Witness for C2: three attempts all succeeding, completion order 3,1,2,
and the concrete summary line of the spec scenario. -/
theorem evaluate_success_rate_line_witness :
    (∃ pre, (Evaluate okOracle wsThree "SingleState" [2, 0, 1]).report
        = pre ++ successRateLine
            ((List.range wsThree.Attempts).countP
              (fun i => (runAttempt okOracle wsThree "SingleState" i).succeeded))
            wsThree.Attempts)
    ∧ successRateLine 3 3 = "SUCCESS RATE: 3/3 (100%)\n" :=
  ⟨(evaluate_success_rate_line okOracle wsThree "SingleState" [2, 0, 1]
      (by decide) (by decide) (by decide)).1, by decide⟩

/-- C3: for every configuration and completion order, an evaluation name
missing from the registry makes `Evaluate` return the error
`unknown evaluation: <name>` together with an empty report and an empty span
log (zero attempt runners launched), and this is the only condition under
which the returned error is non-nil. -/
theorem evaluate_unknown_name (O : Oracle) (w : Workspace) (evalName : String)
    (order : List Nat) :
    (evals.contains evalName = false →
      Evaluate O w evalName order
        = { report := "", err := some ("unknown evaluation: " ++ evalName),
            spans := [] })
    ∧ ((Evaluate O w evalName order).err ≠ none
        ↔ evals.contains evalName = false) := by
  constructor
  · intro h
    have hm : evalName ∉ evals := by simpa using h
    simp [Evaluate, hm]
  · by_cases h : evals.contains evalName = true
    · have hm : evalName ∈ evals := by simpa using h
      simp [Evaluate, hm, h]
    · have hm : evalName ∉ evals := by simpa using h
      have h' : evals.contains evalName = false := by simpa using h
      simp [Evaluate, hm, h']

/-- Witness for C3 at the name not-a-real-name. -/
theorem evaluate_unknown_name_witness :
    Evaluate okOracle wsTwo "not-a-real-name" [0, 1]
        = { report := "",
            err := some "unknown evaluation: not-a-real-name", spans := [] }
    ∧ (Evaluate okOracle wsTwo "not-a-real-name" [0, 1]).err ≠ none :=
  ⟨(evaluate_unknown_name okOracle wsTwo "not-a-real-name" [0, 1]).1 (by decide),
    ((evaluate_unknown_name okOracle wsTwo "not-a-real-name" [0, 1]).2).mpr
      (by decide)⟩

/-- C4: in a run of N ≥ 2 attempts where the render call of attempt index k
fails, the failed slot holds only its header, every other attempt still
completes and contributes its own narrative, the failed attempt's success
query is never invoked, it contributes nothing to the success count, and the
aggregate is still assembled over all N slots with denominator N. -/
theorem evaluate_render_failure_isolated (O : Oracle) (w : Workspace)
    (evalName : String) (order : List Nat) (k : Nat) (e : String)
    (hN : 2 ≤ w.Attempts) (hname : evals.contains evalName = true)
    (hperm : order.Perm (List.range w.Attempts)) (hk : k < w.Attempts)
    (herr : O.report evalName
        { attempt := k + 1, model := w.Model, systemPrompt := w.SystemPrompt }
      = Except.error e) :
    (runFanOut O w evalName order).slots k = attemptHeader k
    ∧ (∀ j, j < w.Attempts → j ≠ k →
        (runFanOut O w evalName order).slots j
          = (runAttempt O w evalName j).content)
    ∧ k ∉ (runFanOut O w evalName order).queried
    ∧ (runAttempt O w evalName k).succeeded = false
    ∧ (runFanOut O w evalName order).successCount
        = (List.range w.Attempts).countP
            (fun i => (runAttempt O w evalName i).succeeded)
    ∧ (Evaluate O w evalName order).report
        = reportHead w
          ++ String.join
              ((List.range w.Attempts).map
                (fun i => (runAttempt O w evalName i).content))
          ++ finalSection
              ((List.range w.Attempts).countP
                (fun i => (runAttempt O w evalName i).succeeded))
              w.Attempts := by
  have hra := runAttempt_report_error O w evalName k e herr
  have hkmem : k ∈ order := hperm.mem_iff.mpr (List.mem_range.mpr hk)
  refine ⟨?_, ?_, ?_, ?_, runFanOut_count O w evalName order hperm, ?_⟩
  · rw [runFanOut_slots, if_pos hkmem, hra]
  · intro j hj _
    rw [runFanOut_slots, if_pos (hperm.mem_iff.mpr (List.mem_range.mpr hj))]
  · unfold runFanOut
    apply foldl_stepAttempt_not_queried
    · rw [hra]
    · simp [initFanState]
  · rw [hra]
  · rw [Evaluate_known O w evalName order hname]
    dsimp only
    rw [runFanOut_slots_map O w evalName order hperm,
      runFanOut_count O w evalName order hperm]

/-- Witness for C4: three attempts, render failing on attempt number 2,
completion order 3,2,1. -/
theorem evaluate_render_failure_isolated_witness :
    (runFanOut failAt2Oracle wsThree "SingleState" [2, 1, 0]).slots 1
        = attemptHeader 1
    ∧ (runFanOut failAt2Oracle wsThree "SingleState" [2, 1, 0]).slots 0
        = (runAttempt failAt2Oracle wsThree "SingleState" 0).content
    ∧ 1 ∉ (runFanOut failAt2Oracle wsThree "SingleState" [2, 1, 0]).queried
    ∧ (runFanOut failAt2Oracle wsThree "SingleState" [2, 1, 0]).successCount = 2 := by
  have h := evaluate_render_failure_isolated failAt2Oracle wsThree "SingleState"
    [2, 1, 0] 1 "render failed" (by decide) (by decide) (by decide) (by decide)
    (by rfl)
  refine ⟨h.1, h.2.1 0 (by decide) (by decide), h.2.2.1, ?_⟩
  rw [h.2.2.2.2.1]
  decide

/-- C5: for every evaluation name and any completion order of the model
units, `EvaluateAllModelsOnce` returns a nil error and exactly one outcome
per known model, in the known-models list order; each model's outcome is the
delegated run over a fresh one-attempt configuration built from that model
and the caller's inherited system prompt, and a delegated run that errors is
recorded as `ERROR: <message>` in that model's slot without affecting the
others. -/
theorem evaluate_all_models_in_list_order (O : Oracle) (w : Workspace)
    (name : String) (order : List Nat)
    (hperm : order.Perm (List.range knownModels.length)) :
    (EvaluateAllModelsOnce O w name order).err = none
    ∧ (EvaluateAllModelsOnce O w name order).reports.length = knownModels.length
    ∧ (EvaluateAllModelsOnce O w name order).reports
        = (List.range knownModels.length).map (modelSlot O w name)
    ∧ ∀ i e,
        (Evaluate O (New (knownModels.getD i "") 1 w.SystemPrompt) name
            (List.range 1)).err = some e →
        modelSlot O w name i = "ERROR: " ++ e := by
  refine ⟨rfl, ?_, EvaluateAllModelsOnce_reports O w name order hperm, ?_⟩
  · rw [EvaluateAllModelsOnce_reports O w name order hperm]
    simp
  · intro i e he
    unfold modelSlot
    rw [he]

/-- Witness for C5: completion order 4,2,1,3 over the four known models,
plus the error-absorption conjunct at an unregistered name. -/
theorem evaluate_all_models_in_list_order_witness :
    (EvaluateAllModelsOnce okOracle wsTwo "SingleState" [3, 1, 0, 2]).err = none
    ∧ (EvaluateAllModelsOnce okOracle wsTwo "SingleState" [3, 1, 0, 2]).reports.length
        = knownModels.length
    ∧ (EvaluateAllModelsOnce okOracle wsTwo "SingleState" [3, 1, 0, 2]).reports
        = (List.range knownModels.length).map (modelSlot okOracle wsTwo "SingleState")
    ∧ modelSlot okOracle wsTwo "nope" 2 = "ERROR: unknown evaluation: nope" := by
  have h := evaluate_all_models_in_list_order okOracle wsTwo "SingleState"
    [3, 1, 0, 2] (by decide)
  have h2 := evaluate_all_models_in_list_order okOracle wsTwo "nope"
    [3, 1, 0, 2] (by decide)
  exact ⟨h.1, h.2.1, h.2.2.1, h2.2.2.2 2 "unknown evaluation: nope" (by rfl)⟩

/-- C9: `EvaluateAllModelsOnce` never returns a non-nil error: even at a
name unknown to the registry it returns a nil error, and every one of the
four known-model slots then holds `ERROR: unknown evaluation: <name>` - the
configuration error that is fatal to a direct `Evaluate` call is absorbed
per model. -/
theorem evaluate_all_models_absorbs_unknown (O : Oracle) (w : Workspace)
    (name : String) (order : List Nat)
    (hperm : order.Perm (List.range knownModels.length))
    (hunknown : evals.contains name = false) :
    (EvaluateAllModelsOnce O w name order).err = none
    ∧ knownModels.length = 4
    ∧ (EvaluateAllModelsOnce O w name order).reports
        = List.replicate 4 ("ERROR: " ++ ("unknown evaluation: " ++ name)) := by
  refine ⟨rfl, rfl, ?_⟩
  rw [EvaluateAllModelsOnce_reports O w name order hperm]
  have hm : name ∉ evals := by simpa using hunknown
  have hc : ∀ i, modelSlot O w name i
      = "ERROR: " ++ ("unknown evaluation: " ++ name) := by
    intro i
    unfold modelSlot
    simp [Evaluate, hm]
  have hmap : (List.range knownModels.length).map (modelSlot O w name)
      = (List.range knownModels.length).map
          (fun _ => "ERROR: " ++ ("unknown evaluation: " ++ name)) :=
    List.map_congr_left (fun i _ => hc i)
  rw [hmap]
  simp
  rfl

/-- Witness for C9 at the name not-a-real-name, completion order 2,4,3,1. -/
theorem evaluate_all_models_absorbs_unknown_witness :
    (EvaluateAllModelsOnce okOracle wsTwo "not-a-real-name" [1, 3, 2, 0]).err = none
    ∧ knownModels.length = 4
    ∧ (EvaluateAllModelsOnce okOracle wsTwo "not-a-real-name" [1, 3, 2, 0]).reports
        = List.replicate 4
            ("ERROR: " ++ ("unknown evaluation: " ++ "not-a-real-name")) :=
  evaluate_all_models_absorbs_unknown okOracle wsTwo "not-a-real-name"
    [1, 3, 2, 0] (by decide) (by decide)

/-- C8: at attempts = 0 with a registered evaluation name, `Evaluate` does
not reject the configuration: the completion order is empty (zero attempts
launch), the error is nil, the slot readout is empty (zero attempt
sections), and the summary line divides the success count 0 by the attempt
count 0 unguarded, printing the NaN the float division produces. -/
theorem evaluate_zero_attempts (O : Oracle) (w : Workspace) (evalName : String)
    (order : List Nat)
    (hw : w.Attempts = 0) (hname : evals.contains evalName = true)
    (hperm : order.Perm (List.range w.Attempts)) :
    order = []
    ∧ (Evaluate O w evalName order).err = none
    ∧ (List.range w.Attempts).map (runFanOut O w evalName order).slots = []
    ∧ (Evaluate O w evalName order).report
        = reportHead w ++ String.join [] ++ finalSection 0 0
    ∧ successRateLine 0 0 = "SUCCESS RATE: 0/0 (NaN%)\n" := by
  have horder : order = [] := by
    rw [hw, List.range_zero] at hperm
    exact List.perm_nil.mp hperm
  subst horder
  refine ⟨rfl, ?_, ?_, ?_, by decide⟩
  · rw [Evaluate_known O w evalName [] hname]
  · rw [hw]
    simp
  · rw [Evaluate_known O w evalName [] hname]
    dsimp only
    rw [hw]
    simp [runFanOut, initFanState]

/-- Witness for C8 at the zero-attempt workspace. -/
theorem evaluate_zero_attempts_witness :
    ([] : List Nat) = []
    ∧ (Evaluate okOracle wsZero "SingleState" []).err = none
    ∧ (List.range wsZero.Attempts).map
        (runFanOut okOracle wsZero "SingleState" []).slots = []
    ∧ (Evaluate okOracle wsZero "SingleState" []).report
        = reportHead wsZero ++ String.join [] ++ finalSection 0 0
    ∧ successRateLine 0 0 = "SUCCESS RATE: 0/0 (NaN%)\n" :=
  evaluate_zero_attempts okOracle wsZero "SingleState" []
    (by rfl) (by decide) (by decide)

/-- C10: every attempt's narrative begins with the header
`## Attempt <number>` followed by a blank line; when the render call fails
the narrative is exactly that header with no error text, and when only the
success query fails the narrative is the header plus the rendered report. -/
theorem attempt_slot_header_structure (O : Oracle) (w : Workspace)
    (evalName : String) (i : Nat) :
    (∃ rest, (runAttempt O w evalName i).content = attemptHeader i ++ rest)
    ∧ (∀ e, O.report evalName
          { attempt := i + 1, model := w.Model, systemPrompt := w.SystemPrompt }
        = Except.error e →
        (runAttempt O w evalName i).content = attemptHeader i)
    ∧ (∀ rpt e, O.report evalName
          { attempt := i + 1, model := w.Model, systemPrompt := w.SystemPrompt }
        = Except.ok rpt →
        O.succeeded evalName
          { attempt := i + 1, model := w.Model, systemPrompt := w.SystemPrompt }
        = Except.error e →
        (runAttempt O w evalName i).content = attemptHeader i ++ (rpt ++ "\n"))
    ∧ attemptHeader i = "## Attempt " ++ toString (i + 1) ++ "\n\n" := by
  refine ⟨?_, ?_, ?_, rfl⟩
  · rcases hr : O.report evalName
        { attempt := i + 1, model := w.Model, systemPrompt := w.SystemPrompt }
      with e | rpt
    · exact ⟨"", by rw [runAttempt_report_error O w evalName i e hr,
        String.append_empty]⟩
    · rcases hs : O.succeeded evalName
          { attempt := i + 1, model := w.Model, systemPrompt := w.SystemPrompt }
        with e | b
      · exact ⟨rpt ++ "\n", by
          rw [runAttempt_succeeded_error O w evalName i rpt e hr hs,
            String.append_assoc]⟩
      · exact ⟨rpt ++ "\n", by
          rw [runAttempt_ok O w evalName i rpt b hr hs, String.append_assoc]⟩
  · intro e he
    rw [runAttempt_report_error O w evalName i e he]
  · intro rpt e hr hs
    rw [runAttempt_succeeded_error O w evalName i rpt e hr hs,
      String.append_assoc]

/-- Witness for C10: a render failure on attempt number 2 and a success
query failure on attempt number 1. -/
theorem attempt_slot_header_structure_witness :
    (∃ rest, (runAttempt failAt2Oracle wsThree "SingleState" 1).content
        = attemptHeader 1 ++ rest)
    ∧ (runAttempt failAt2Oracle wsThree "SingleState" 1).content = attemptHeader 1
    ∧ (runAttempt succFailOracle wsThree "SingleState" 0).content
        = attemptHeader 0 ++ ("eval transcript" ++ "\n")
    ∧ attemptHeader 1 = "## Attempt 2\n\n" := by
  have h1 := attempt_slot_header_structure failAt2Oracle wsThree "SingleState" 1
  have h2 := attempt_slot_header_structure succFailOracle wsThree "SingleState" 0
  exact ⟨h1.1, h1.2.1 "render failed" (by rfl),
    h2.2.2.1 "eval transcript" "check failed" (by rfl) (by rfl), h1.2.2.2⟩

/-- C6 counterexample: calling `WithSystemPrompt` on the workspace at
address 0 of the concrete heap changes that same workspace's SystemPrompt
(it is no longer the original value) and returns the very pointer it was
called on rather than a new value, so the claim that the original
workspace's SystemPrompt is unchanged afterward is false. -/
theorem withSystemPrompt_mutates_receiver :
    ¬ (((WithSystemPrompt heap0 0 "updated").1 0).SystemPrompt = "original")
    ∧ (WithSystemPrompt heap0 0 "updated").2 = 0 :=
  ⟨by decide, rfl⟩

/-- C6 amended: `WithSystemPrompt` mutates the workspace it is called on in
place - afterwards that workspace's SystemPrompt is the new prompt while its
other fields are unchanged - and returns the same workspace pointer, not a
new configuration value; no other heap cell is affected. -/
theorem withSystemPrompt_updates_in_place (h : Heap) (p : Ptr) (prompt : String) :
    (WithSystemPrompt h p prompt).2 = p
    ∧ ((WithSystemPrompt h p prompt).1 p).SystemPrompt = prompt
    ∧ ((WithSystemPrompt h p prompt).1 p).Model = (h p).Model
    ∧ ((WithSystemPrompt h p prompt).1 p).Attempts = (h p).Attempts
    ∧ ∀ q, q ≠ p → (WithSystemPrompt h p prompt).1 q = h q := by
  refine ⟨rfl, by simp [WithSystemPrompt], by simp [WithSystemPrompt],
    by simp [WithSystemPrompt], ?_⟩
  intro q hq
  simp [WithSystemPrompt, hq]

/-- Witness for the amended C6 at the concrete heap, address 0 and the
untouched address 1. -/
theorem withSystemPrompt_updates_in_place_witness :
    (WithSystemPrompt heap0 0 "updated").2 = 0
    ∧ ((WithSystemPrompt heap0 0 "updated").1 0).SystemPrompt = "updated"
    ∧ ((WithSystemPrompt heap0 0 "updated").1 0).Model = (heap0 0).Model
    ∧ ((WithSystemPrompt heap0 0 "updated").1 0).Attempts = (heap0 0).Attempts
    ∧ (WithSystemPrompt heap0 0 "updated").1 1 = heap0 1 := by
  have h := withSystemPrompt_updates_in_place heap0 0 "updated"
  exact ⟨h.1, h.2.1, h.2.2.1, h.2.2.2.1, h.2.2.2.2 1 (by decide)⟩

/-- C7: the source increments the shared success counter from concurrent
goroutines with a plain unsynchronized `successCount++`; splitting that
statement into its load and store halves, the valid interleaving `raceSched`
of two succeeding runners ends with the counter at 1, a lost update, so the
final counter does not always equal the number of attempts that reported
success - refuting the claim that every increment is synchronized and that
no concurrent completion order can lose an update. -/
theorem successCount_lost_update :
    validSched [0, 1] raceSched = true
    ∧ (execSched raceSched).counter = 1
    ∧ ¬ (execSched raceSched).counter = ([0, 1] : List Nat).length :=
  ⟨by decide, by decide, by decide⟩

end Daggerverse
